import Mathlib

/-!
Verification development for the mysql-golang-mcp repository.

The definitions below are a shallow embedding of the Go source:
  * `src/db/validator.go`  — the query classifier (`DetectQueryType`,
    `ValidateQueryType`, `IsReadOnlyQueryType`, `IsDangerousQueryType`).
  * `src/db/connection.go` — the connection manager (`GetConnection`,
    `ExecuteQuery`, `ExecuteAlter`, `ExecuteUnsafe`) and its text-based
    predicates (`isReadOnlyQuery`, `isDangerousQuery`, `isSensitiveQuery`).
  * the config package — `validateAndApplyDefaults` and `expandEnvVar`.

Strings are modelled as `List Char`.  Go's `strings.ToUpper` is modelled on
the ASCII range (the only range the SQL keyword alphabet uses); Go's
`strings.TrimSpace` trims Unicode white space, modelled by the explicit
code-point list `goSpaceChars` (the White_Space code points).  The database
driver is modelled as an oracle (`DriverEnv`), and each execution mode
additionally returns the list of driver statement calls it issued, so that
"the statement is (not) executed" is expressible.
-/

namespace MysqlMcp

/-! ### Go string primitives -/

/-- The Unicode White_Space code points trimmed by Go's `strings.TrimSpace`. -/
def goSpaceChars : List Char :=
  ['\t', '\n', '\x0b', '\x0c', '\r', ' ', '\u0085', '\u00a0', '\u1680',
   '\u2000', '\u2001', '\u2002', '\u2003', '\u2004', '\u2005', '\u2006',
   '\u2007', '\u2008', '\u2009', '\u200a', '\u2028', '\u2029', '\u202f',
   '\u205f', '\u3000']

/-- Whether `c` is white space in the sense of Go's `unicode.IsSpace`. -/
def isSpaceGo (c : Char) : Bool := goSpaceChars.contains c

/-- Go `strings.ToUpper`, restricted to the ASCII case mapping. -/
def toUpperGo (s : List Char) : List Char := s.map Char.toUpper

/-- Go `strings.TrimSpace`: drop white space from both ends. -/
def trimSpace (s : List Char) : List Char :=
  ((s.dropWhile isSpaceGo).reverse.dropWhile isSpaceGo).reverse

/-- Go `strings.Contains s pat`. -/
def containsStr : List Char → List Char → Bool
  | [], pat => pat.isEmpty
  | s@(_ :: t), pat => pat.isPrefixOf s || containsStr t pat

/-- Go `strings.Join parts sep`. -/
def joinWith (sep : List Char) : List (List Char) → List Char
  | [] => []
  | [x] => x
  | x :: xs => x ++ sep ++ joinWith sep xs

/-! ### Classifier (src/db/validator.go) -/

/-- The `QueryType` tag set of validator.go. -/
inductive QueryType
  | unknown | select | insert | update | delete | alter | show | describe
  | explain | drop | truncate | create | grant | revoke | set | use
deriving DecidableEq, Repr

/-- The ordered prefix table of `DetectQueryType` (note the `"DESC "` entry,
with a trailing space, placed after `"DESCRIBE"`). -/
def prefixTable : List (List Char × QueryType) :=
  [("SELECT".data, .select), ("INSERT".data, .insert), ("UPDATE".data, .update),
   ("DELETE".data, .delete), ("ALTER".data, .alter), ("SHOW".data, .show),
   ("DESCRIBE".data, .describe), ("DESC ".data, .describe),
   ("EXPLAIN".data, .explain), ("DROP".data, .drop),
   ("TRUNCATE".data, .truncate), ("CREATE".data, .create),
   ("GRANT".data, .grant), ("REVOKE".data, .revoke), ("SET".data, .set),
   ("USE".data, .use)]

/-- First-match scan of the prefix table. -/
def detectAux (q : List Char) : List (List Char × QueryType) → QueryType
  | [] => .unknown
  | (p, t) :: rest => if p.isPrefixOf q then t else detectAux q rest

/-- `DetectQueryType` of validator.go: classify the trimmed, upper-cased
statement by its leading keyword. -/
def DetectQueryType (query : List Char) : QueryType :=
  detectAux (trimSpace (toUpperGo query)) prefixTable

/-- `GetQueryTypeLabel` of validator.go. -/
def GetQueryTypeLabel : QueryType → List Char
  | .unknown => "UNKNOWN".data
  | .select => "SELECT".data
  | .insert => "INSERT".data
  | .update => "UPDATE".data
  | .delete => "DELETE".data
  | .alter => "ALTER".data
  | .show => "SHOW".data
  | .describe => "DESCRIBE".data
  | .explain => "EXPLAIN".data
  | .drop => "DROP".data
  | .truncate => "TRUNCATE".data
  | .create => "CREATE".data
  | .grant => "GRANT".data
  | .revoke => "REVOKE".data
  | .set => "SET".data
  | .use => "USE".data

/-- `IsReadOnlyQueryType` of validator.go. -/
def IsReadOnlyQueryType : QueryType → Bool
  | .select | .show | .describe | .explain => true
  | _ => false

/-- `IsDangerousQueryType` of validator.go (note: ALTER is not in this set). -/
def IsDangerousQueryType : QueryType → Bool
  | .drop | .truncate | .create | .grant | .revoke => true
  | _ => false

/-- The error taxonomy of the manager and validator (Go returns `error`
values built with `fmt.Errorf`; each constructor stands for one of those
message families, carrying the data interpolated into the message). -/
inductive DbError
  | unknownConnection (name : List Char)
  | openFailure (name : List Char)
  | connectionFailure (name : List Char)
  | readOnlyViolation (name : List Char)
  | dangerousBlocked
  | dangerousTypeBlocked
  | sensitiveBlocked
  | queryTypeMismatch (expected got : List Char)
  | alterBlocked (pat : List Char)
  | executionFailure
deriving DecidableEq, Repr

/-- `ValidateQueryType` of validator.go: `none` when the detected type is a
member of `allowed`, otherwise a mismatch error naming the expected label
set (joined with "/") and the detected label. -/
def ValidateQueryType (query : List Char) (allowed : List QueryType) :
    Option DbError :=
  let detected := DetectQueryType query
  if allowed.contains detected then none
  else
    some (.queryTypeMismatch (joinWith "/".data (allowed.map GetQueryTypeLabel))
      (GetQueryTypeLabel detected))

/-! ### Text predicates (src/db/connection.go) -/

/-- The prefix list of `isReadOnlyQuery` in connection.go — note the bare
`"DESC"` entry (no trailing space), unlike `DetectQueryType`'s `"DESC "`. -/
def readOnlyPrefixes : List (List Char) :=
  ["SELECT".data, "SHOW".data, "DESCRIBE".data, "DESC".data, "EXPLAIN".data]

/-- `isReadOnlyQuery` of connection.go. -/
def isReadOnlyQuery (query : List Char) : Bool :=
  readOnlyPrefixes.any (fun p => p.isPrefixOf (trimSpace (toUpperGo query)))

/-- The prefix list of `isDangerousQuery` in connection.go. -/
def dangerousPrefixes : List (List Char) :=
  ["DROP".data, "ALTER".data, "TRUNCATE".data, "CREATE".data, "GRANT".data,
   "REVOKE".data]

/-- `isDangerousQuery` of connection.go (text-based; flags ALTER). -/
def isDangerousQuery (query : List Char) : Bool :=
  dangerousPrefixes.any (fun p => p.isPrefixOf (trimSpace (toUpperGo query)))

/-- `isSensitiveQuery` of connection.go: substring checks on the upper-cased
(but not trimmed) statement. -/
def isSensitiveQuery (query : List Char) : Bool :=
  let q := toUpperGo query
  containsStr q ("SHOW GRANTS".data) ||
  containsStr q ("MYSQL.USER".data) ||
  containsStr q ("USER_PRIVILEGES".data) ||
  containsStr q ("SHOW PROCESSLIST".data) ||
  containsStr q ("SHOW FULL PROCESSLIST".data)

/-! ### Configuration (config package: ConnectionConfig, validateAndApplyDefaults, expandEnvVar) -/

/-- `ConnectionConfig` of the config package.  Go's `int` fields are
modelled as `Int`; JSON-absent fields arrive as the Go zero value. -/
structure ConnectionConfig where
  host : List Char
  port : Int
  user : List Char
  password : List Char
  database : List Char
  readOnly : Bool
  maxRows : Int
deriving DecidableEq, Repr

/-- `DSN()` of the config package. -/
def DSN (c : ConnectionConfig) : List Char :=
  c.user ++ ":".data ++ c.password ++ "@tcp(".data ++ c.host ++ ":".data ++
  (toString c.port).data ++ ")/".data ++ c.database ++
  "?parseTime=true&timeout=30s&readTimeout=30s&writeTimeout=30s".data

/-- Config-validation errors ("connection '%s': <field> is required"). -/
inductive ConfigError
  | hostRequired (name : List Char)
  | userRequired (name : List Char)
  | databaseRequired (name : List Char)
deriving DecidableEq, Repr

/-- The connection name carried by a config-validation error. -/
def ConfigError.connName : ConfigError → List Char
  | .hostRequired n => n
  | .userRequired n => n
  | .databaseRequired n => n

/-- The anchored-regex match of `expandEnvVar`
(`^\$\x7b([^\x7d]+)\x7d$`): `some inner` iff the whole value is exactly
`$\x7b`, then one or more non-`\x7d` characters, then `\x7d`. -/
def matchEnvToken (value : List Char) : Option (List Char) :=
  match value with
  | '$' :: '\x7b' :: rest =>
    match rest.getLast? with
    | some c =>
      if c = '\x7d' then
        if !rest.dropLast.isEmpty && !rest.dropLast.contains '\x7d' then
          some rest.dropLast
        else none
      else none
    | none => none
  | _ => none

/-- `expandEnvVar` of the config package; `env` models `os.Getenv`
(total, returning the empty string for unset variables). -/
def expandEnvVar (env : List Char → List Char) (value : List Char) :
    List Char :=
  match matchEnvToken value with
  | some name => env name
  | none => value

/-- `validateAndApplyDefaults` of the config package. -/
def validateAndApplyDefaults (env : List Char → List Char) (name : List Char)
    (conn : ConnectionConfig) : Except ConfigError ConnectionConfig :=
  let host := expandEnvVar env conn.host
  let user := expandEnvVar env conn.user
  let password := expandEnvVar env conn.password
  let database := expandEnvVar env conn.database
  if host = [] then .error (.hostRequired name)
  else if user = [] then .error (.userRequired name)
  else if database = [] then .error (.databaseRequired name)
  else
    .ok { conn with
          host := host, user := user, password := password,
          database := database,
          port := if conn.port = 0 then 3306 else conn.port,
          maxRows := if conn.maxRows = 0 then 1000 else conn.maxRows }

/-! ### Connection manager (src/db/connection.go)

Results are modelled with a tagged value type (raw driver bytes become
text in rows, mirroring the `[]byte`-to-`string` conversion).  The driver
is an oracle `DriverEnv`; handles are numbers.  Each execution mode returns
`(outcome, new manager state, driver statement calls issued)`; the trace
makes "the statement was (not) executed" a provable statement.  The
double-checked locking of `GetConnection` collapses to its sequential
(single-caller) semantics: the probe outcome for a handle is a fixed fact
of the oracle, so the re-check after acquiring the write lock repeats the
failed probe and proceeds to reconnect. -/

/-- A driver cell value (`interface\x7b\x7d` in the Go row scan). -/
inductive Value
  | vNull
  | vInt (i : Int)
  | vStr (s : List Char)
  | vBytes (b : List Char)
deriving DecidableEq, Repr

/-- The `[]byte`-to-`string` normalization applied to each scanned cell. -/
def normVal : Value → Value
  | .vBytes b => .vStr b
  | v => v

/-- `QueryResult` of connection.go (rows are column-name/value maps,
modelled as association lists in column order). -/
structure QueryResult where
  columns : List (List Char)
  rows : List (List (List Char × Value))
  count : Nat
deriving DecidableEq, Repr

/-- `WriteResult` of connection.go. -/
structure WriteResult where
  rowsAffected : Int
  lastInsertID : Int
deriving DecidableEq, Repr

/-- `UnsafeResult` of connection.go. -/
structure UnsafeResult where
  queryResult : Option QueryResult
  writeResult : Option WriteResult
  warning : List Char
  skippedCheck : List Char
deriving DecidableEq, Repr

/-- The fixed warning string of ExecuteUnsafe. -/
def unsafeWarning : List Char :=
  ("UNSAFE EXECUTION: This query bypassed safety checks. " ++
   "Ensure you understand the implications.").data

/-- A statement issued to the driver (`db.Query` / `db.Exec`). -/
inductive DbCall
  | queryCall (h : Nat) (sql : List Char)
  | execCall (h : Nat) (sql : List Char)
deriving DecidableEq, Repr

/-- Manager state: the fixed registry (`Manager.config.Connections`) and
the mutable pool (`Manager.connections`), as association lists. -/
structure ManagerState where
  registry : List (List Char × ConnectionConfig)
  pool : List (List Char × Nat)
deriving DecidableEq, Repr

/-- The driver oracle: open outcome per DSN, probe outcome per handle, and
per-handle statement outcomes (a query yields column names and a row
stream; an exec yields rows-affected and last-insert-id). -/
structure DriverEnv where
  openDsn : List Char → Except Unit Nat
  pingOk : Nat → Bool
  queryRes : Nat → List Char → Except Unit (List (List Char) × List (List Value))
  execRes : Nat → List Char → Except Unit (Int × Int)

/-- Association-list lookup (Go map read). -/
def lookupStr {α : Type} : List (List Char × α) → List Char → Option α
  | [], _ => none
  | (k, v) :: rest, name => if k = name then some v else lookupStr rest name

/-- Association-list update (Go map write `m[k] = v`). -/
def setEntry {α : Type} : List (List Char × α) → List Char → α →
    List (List Char × α)
  | [], name, v => [(name, v)]
  | (k, v') :: rest, name, v =>
    if k = name then (name, v) :: rest else (k, v') :: setEntry rest name v

/-- The `for rows.Next() \x7b if rowCount >= MaxRows \x7b break \x7d ... \x7d`
loop: collect rows while the remaining budget is positive. -/
def takeCapped {α : Type} : Int → List α → List α
  | _, [] => []
  | m, x :: xs => if m ≤ 0 then [] else x :: takeCapped (m - 1) xs

/-- Build one result row: zip column names with normalized cell values. -/
def mkRow (cols : List (List Char)) (vals : List Value) :
    List (List Char × Value) :=
  (cols.zip vals).map (fun cv => (cv.1, normVal cv.2))

/-- The row-collection phase shared by ExecuteQuery and the read branch of
ExecuteUnsafe: cap at `maxRows`, normalize cells, count what was kept. -/
def collectRows (maxRows : Int) (cols : List (List Char))
    (rows : List (List Value)) : QueryResult :=
  let collected := (takeCapped maxRows rows).map (mkRow cols)
  { columns := cols, rows := collected, count := collected.length }

/-- The open-configure-probe-store tail of `GetConnection`. -/
def connectNew (env : DriverEnv) (st : ManagerState) (name : List Char)
    (cfg : ConnectionConfig) :
    Except DbError (Nat × ConnectionConfig) × ManagerState :=
  match env.openDsn (DSN cfg) with
  | .error _ => (.error (.openFailure name), st)
  | .ok h =>
    if env.pingOk h then
      (.ok (h, cfg), { st with pool := setEntry st.pool name h })
    else
      (.error (.connectionFailure name), st)

/-- `GetConnection` of connection.go: registry lookup, probe-then-reuse of a
pooled handle, else reconnect. -/
def GetConnection (env : DriverEnv) (st : ManagerState) (name : List Char) :
    Except DbError (Nat × ConnectionConfig) × ManagerState :=
  match lookupStr st.registry name with
  | none => (.error (.unknownConnection name), st)
  | some cfg =>
    match lookupStr st.pool name with
    | some h =>
      if env.pingOk h then (.ok (h, cfg), st)
      else connectNew env st name cfg
    | none => connectNew env st name cfg

/-- `ExecuteQuery` of connection.go: resolve, then the read-only, dangerous
and sensitive gates (in that order), then issue the statement as a query
and collect up to `maxRows` rows. -/
def ExecuteQuery (env : DriverEnv) (st : ManagerState)
    (connectionName query : List Char) :
    Except DbError QueryResult × ManagerState × List DbCall :=
  match GetConnection env st connectionName with
  | (.error e, st') => (.error e, st', [])
  | (.ok (h, cfg), st') =>
    if cfg.readOnly && !isReadOnlyQuery query then
      (.error (.readOnlyViolation connectionName), st', [])
    else if !cfg.readOnly && isDangerousQuery query then
      (.error .dangerousBlocked, st', [])
    else if isSensitiveQuery query then
      (.error .sensitiveBlocked, st', [])
    else
      match env.queryRes h query with
      | .error _ => (.error .executionFailure, st', [.queryCall h query])
      | .ok (cols, rows) =>
        (.ok (collectRows cfg.maxRows cols rows), st', [.queryCall h query])

/-- The patterns of ExecuteAlter's stricter blocklist. -/
def alterBlockedPatterns : List (List Char) :=
  ["DROP DATABASE".data, "DROP SCHEMA".data, "TRUNCATE".data,
   "CREATE DATABASE".data, "GRANT".data, "REVOKE".data]

/-- The first blocklist pattern contained in `q`, if any (the Go loop
returns on the first match). -/
def findBlockedPattern (q : List Char) : Option (List Char) :=
  alterBlockedPatterns.find? (fun p => containsStr q p)

/-- `ExecuteAlter` of connection.go: resolve, require the detected type to
be ALTER, the read-only gate, the stricter substring blocklist over the
upper-cased trimmed statement, the sensitive gate, then exec (the result
carries rows-affected only). -/
def ExecuteAlter (env : DriverEnv) (st : ManagerState)
    (connectionName query : List Char) :
    Except DbError WriteResult × ManagerState × List DbCall :=
  match GetConnection env st connectionName with
  | (.error e, st') => (.error e, st', [])
  | (.ok (h, cfg), st') =>
    match ValidateQueryType query [.alter] with
    | some e => (.error e, st', [])
    | none =>
      if cfg.readOnly then (.error (.readOnlyViolation connectionName), st', [])
      else
        match findBlockedPattern (toUpperGo (trimSpace query)) with
        | some pat => (.error (.alterBlocked pat), st', [])
        | none =>
          if isSensitiveQuery query then (.error .sensitiveBlocked, st', [])
          else
            match env.execRes h query with
            | .error _ => (.error .executionFailure, st', [.execCall h query])
            | .ok (ra, _) =>
              (.ok { rowsAffected := ra, lastInsertID := 0 }, st',
               [.execCall h query])

/-- The skipped-checks message computed by ExecuteUnsafe: the applicable
entries of \x7bdangerous query blocking, sensitive query blocking\x7d joined
with ", ", or "none". -/
def skippedCheckMsg (query : List Char) : List Char :=
  let skipped :=
    (if isDangerousQuery query then ["dangerous query blocking".data] else [])
    ++ (if isSensitiveQuery query then ["sensitive query blocking".data] else [])
  if skipped.isEmpty then "none".data else joinWith ", ".data skipped

/-- `ExecuteUnsafe` of connection.go: resolve, keep only the read-only gate
(on the detected type), record the skipped checks, then branch purely on
whether the detected type is read-only: query path (with the `maxRows` cap)
or exec path. -/
def ExecuteUnsafeMode (env : DriverEnv) (st : ManagerState)
    (connectionName query : List Char) :
    Except DbError UnsafeResult × ManagerState × List DbCall :=
  match GetConnection env st connectionName with
  | (.error e, st') => (.error e, st', [])
  | (.ok (h, cfg), st') =>
    let qt := DetectQueryType query
    if cfg.readOnly && !IsReadOnlyQueryType qt then
      (.error (.readOnlyViolation connectionName), st', [])
    else
      if IsReadOnlyQueryType qt then
        match env.queryRes h query with
        | .error _ => (.error .executionFailure, st', [.queryCall h query])
        | .ok (cols, rows) =>
          (.ok { queryResult := some (collectRows cfg.maxRows cols rows),
                 writeResult := none, warning := unsafeWarning,
                 skippedCheck := skippedCheckMsg query }, st',
           [.queryCall h query])
      else
        match env.execRes h query with
        | .error _ => (.error .executionFailure, st', [.execCall h query])
        | .ok (ra, li) =>
          (.ok { queryResult := none,
                 writeResult := some { rowsAffected := ra, lastInsertID := li },
                 warning := unsafeWarning,
                 skippedCheck := skippedCheckMsg query }, st',
           [.execCall h query])

/-! ### The closed keyword set of the spec (for the classification claims) -/

/-- The closed keyword set, paired with the type each keyword detects as. -/
def closedKeywordTable : List (List Char × QueryType) :=
  [("SELECT".data, .select), ("INSERT".data, .insert), ("UPDATE".data, .update),
   ("DELETE".data, .delete), ("ALTER".data, .alter), ("SHOW".data, .show),
   ("DESCRIBE".data, .describe), ("EXPLAIN".data, .explain),
   ("DROP".data, .drop), ("TRUNCATE".data, .truncate), ("CREATE".data, .create),
   ("GRANT".data, .grant), ("REVOKE".data, .revoke), ("SET".data, .set),
   ("USE".data, .use)]

/-- The read-only keyword subset \x7bSELECT, SHOW, DESCRIBE, EXPLAIN\x7d. -/
def readOnlyKeywords : List (List Char) :=
  ["SELECT".data, "SHOW".data, "DESCRIBE".data, "EXPLAIN".data]

/-! ### Concrete fixtures used by the witness theorems -/

/-- A non-read-only connection policy. -/
def sampleCfg : ConnectionConfig :=
  { host := "localhost".data, port := 3306, user := "u".data,
    password := "p".data, database := "d".data, readOnly := false,
    maxRows := 1000 }

/-- A read-only connection policy. -/
def sampleCfgRO : ConnectionConfig := { sampleCfg with readOnly := true }

/-- A non-read-only policy with `max_rows = 2`. -/
def sampleCfgCap : ConnectionConfig := { sampleCfg with maxRows := 2 }

/-- A manager whose registry has a writable, a read-only and a row-capped
connection, with an empty pool. -/
def sampleState : ManagerState :=
  { registry := [("main".data, sampleCfg), ("ro".data, sampleCfgRO),
                 ("cap".data, sampleCfgCap)],
    pool := [] }

/-- The sample state after handle 7 was pooled for `name`. -/
def pooledState (name : List Char) : ManagerState :=
  { sampleState with pool := [(name, 7)] }

/-- A ten-row result stream. -/
def tenRows : List (List Value) :=
  (List.range 10).map (fun i => [Value.vInt (i : Int)])

/-- A healthy driver oracle: opening yields handle 7, probes succeed,
queries yield one column and ten rows, execs affect one row. -/
def sampleEnv : DriverEnv :=
  { openDsn := fun _ => .ok 7, pingOk := fun _ => true,
    queryRes := fun _ _ => .ok (["c".data], tenRows),
    execRes := fun _ _ => .ok (1, 5) }

/-- A driver oracle whose probes always fail. -/
def deadPingEnv : DriverEnv :=
  { openDsn := fun _ => .ok 7, pingOk := fun _ => false,
    queryRes := fun _ _ => .error (), execRes := fun _ _ => .error () }


/-- An environment with every variable unset (`os.Getenv` returns ""). -/
def envUnset : List Char → List Char := fun _ => []

/-- A connection config whose host is exactly one `$\x7bDB_HOST\x7d` token
and whose port and max_rows are absent (zero). -/
def connWithTokenHost : ConnectionConfig :=
  { host := '$' :: '\x7b' :: ("DB_HOST".data ++ ['\x7d']), port := 0,
    user := "u".data, password := [], database := "d".data,
    readOnly := false, maxRows := 0 }

/-- A valid connection config with absent (zero) port and max_rows. -/
def connDefaults : ConnectionConfig :=
  { host := "h".data, port := 0, user := "u".data, password := [],
    database := "d".data, readOnly := false, maxRows := 0 }


/-- The `UnsafeResult` produced for "DROP TABLE t" on the writable sample
connection. -/
def unsafeDropResult : UnsafeResult :=
  { queryResult := none,
    writeResult := some { rowsAffected := 1, lastInsertID := 5 },
    warning := unsafeWarning, skippedCheck := "dangerous query blocking".data }

/-- The `QueryResult` of a capped (max_rows = 2) query over the ten-row
stream. -/
def cap2Result : QueryResult :=
  { columns := [("c".data)],
    rows := [[(("c".data), Value.vInt 0)], [(("c".data), Value.vInt 1)]],
    count := 2 }

/-! ### Helper lemmas -/

theorem eq_append_of_isPrefixOf {p u : List Char} (h : p.isPrefixOf u = true) :
    ∃ t, u = p ++ t := by
  have h' : p <+: u := by simpa using h
  obtain ⟨t, ht⟩ := h'
  exact ⟨t, ht.symm⟩

theorem toUpper_space {c : Char} (h : isSpaceGo c = true) : c.toUpper = c := by
  have hall : goSpaceChars.all (fun c => c.toUpper == c) = true := by decide
  have hc : c ∈ goSpaceChars := by
    simpa [isSpaceGo, List.contains, List.elem_iff] using h
  exact eq_of_beq (List.all_eq_true.mp hall c hc)

theorem toUpperGo_space {ws : List Char}
    (h : ∀ c ∈ ws, isSpaceGo c = true) : toUpperGo ws = ws := by
  induction ws with
  | nil => rfl
  | cons a l ih =>
    simp only [toUpperGo, List.map_cons]
    refine congrArg₂ List.cons (toUpper_space (h a (by simp))) ?_
    exact ih (fun c hc => h c (by simp [hc]))

theorem dropWhile_no_space {l : List Char}
    (h : ∀ c ∈ l, isSpaceGo c = false) : l.dropWhile isSpaceGo = l := by
  cases l with
  | nil => rfl
  | cons a t => exact List.dropWhile_cons_of_neg (by simp [h a (by simp)])

theorem trim_right_append {a b : List Char}
    (h : ∀ c ∈ a, isSpaceGo c = false) :
    ∃ t, ((a ++ b).reverse.dropWhile isSpaceGo).reverse = a ++ t := by
  rw [List.reverse_append, List.dropWhile_append]
  by_cases hb : (b.reverse.dropWhile isSpaceGo).isEmpty = true
  · rw [if_pos hb]
    have hrev : a.reverse.dropWhile isSpaceGo = a.reverse :=
      dropWhile_no_space (fun c hc => h c (List.mem_reverse.mp hc))
    exact ⟨[], by rw [hrev, List.reverse_reverse, List.append_nil]⟩
  · rw [if_neg hb]
    exact ⟨(b.reverse.dropWhile isSpaceGo).reverse,
      by rw [List.reverse_append, List.reverse_reverse]⟩

theorem trimSpace_shape {ws kw rest : List Char}
    (hws : ∀ c ∈ ws, isSpaceGo c = true)
    (hkw : ∀ c ∈ kw, isSpaceGo c = false) (hne : kw ≠ []) :
    ∃ t, trimSpace (ws ++ (kw ++ rest)) = kw ++ t := by
  unfold trimSpace
  rw [List.dropWhile_append_of_pos hws]
  have h1 : (kw ++ rest).dropWhile isSpaceGo = kw ++ rest := by
    cases kw with
    | nil => exact absurd rfl hne
    | cons a t =>
      rw [List.cons_append]
      exact List.dropWhile_cons_of_neg (by simp [hkw a (by simp)])
  rw [h1]
  exact trim_right_append hkw

theorem DetectQueryType_shape {kw : List Char} {qt : QueryType}
    (hdet : ∀ t, detectAux (kw ++ t) prefixTable = qt)
    (hkw : ∀ c ∈ kw, isSpaceGo c = false) (hne : kw ≠ [])
    {ws kwRaw rest : List Char}
    (hws : ∀ c ∈ ws, isSpaceGo c = true) (hup : toUpperGo kwRaw = kw) :
    DetectQueryType (ws ++ kwRaw ++ rest) = qt := by
  unfold DetectQueryType
  have hsplit : toUpperGo (ws ++ kwRaw ++ rest) =
      ws ++ (kw ++ toUpperGo rest) := by
    simp only [toUpperGo, List.map_append, List.append_assoc]
    rw [show ws.map Char.toUpper = ws from toUpperGo_space hws,
        show kwRaw.map Char.toUpper = kw from hup]
  rw [hsplit]
  obtain ⟨t, ht⟩ := @trimSpace_shape ws kw (toUpperGo rest) hws hkw hne
  rw [ht]
  exact hdet t

/-! ### Leading-keyword detection lemmas -/

theorem detect_select (t : List Char) :
    detectAux ("SELECT".data ++ t) prefixTable = .select := by
  simp [detectAux, prefixTable]

theorem detect_insert (t : List Char) :
    detectAux ("INSERT".data ++ t) prefixTable = .insert := by
  simp [detectAux, prefixTable]

theorem detect_update (t : List Char) :
    detectAux ("UPDATE".data ++ t) prefixTable = .update := by
  simp [detectAux, prefixTable]

theorem detect_delete (t : List Char) :
    detectAux ("DELETE".data ++ t) prefixTable = .delete := by
  simp [detectAux, prefixTable]

theorem detect_alter (t : List Char) :
    detectAux ("ALTER".data ++ t) prefixTable = .alter := by
  simp [detectAux, prefixTable]

theorem detect_show (t : List Char) :
    detectAux ("SHOW".data ++ t) prefixTable = .show := by
  simp [detectAux, prefixTable]

theorem detect_describe (t : List Char) :
    detectAux ("DESCRIBE".data ++ t) prefixTable = .describe := by
  simp [detectAux, prefixTable]

theorem detect_descSpace (t : List Char) :
    detectAux ("DESC ".data ++ t) prefixTable = .describe := by
  simp [detectAux, prefixTable]

theorem detect_explain (t : List Char) :
    detectAux ("EXPLAIN".data ++ t) prefixTable = .explain := by
  simp [detectAux, prefixTable]

theorem detect_drop (t : List Char) :
    detectAux ("DROP".data ++ t) prefixTable = .drop := by
  simp [detectAux, prefixTable]

theorem detect_truncate (t : List Char) :
    detectAux ("TRUNCATE".data ++ t) prefixTable = .truncate := by
  simp [detectAux, prefixTable]

theorem detect_create (t : List Char) :
    detectAux ("CREATE".data ++ t) prefixTable = .create := by
  simp [detectAux, prefixTable]

theorem detect_grant (t : List Char) :
    detectAux ("GRANT".data ++ t) prefixTable = .grant := by
  simp [detectAux, prefixTable]

theorem detect_revoke (t : List Char) :
    detectAux ("REVOKE".data ++ t) prefixTable = .revoke := by
  simp [detectAux, prefixTable]

theorem detect_setKw (t : List Char) :
    detectAux ("SET".data ++ t) prefixTable = .set := by
  simp [detectAux, prefixTable]

theorem detect_useKw (t : List Char) :
    detectAux ("USE".data ++ t) prefixTable = .use := by
  simp [detectAux, prefixTable]

/-! ### C6 -/

/-- **C6**: for every SQL string whose trimmed, upper-cased form begins with
"DESC " (trailing space), the detected type is DESCRIBE and never DELETE;
for every string whose trimmed, upper-cased form begins with "DESCRIBE",
the detected type is DESCRIBE. -/
theorem C6_desc_detection (s : List Char) :
    ("DESC ".data.isPrefixOf (trimSpace (toUpperGo s)) = true →
      DetectQueryType s = .describe ∧ DetectQueryType s ≠ .delete)
    ∧ ("DESCRIBE".data.isPrefixOf (trimSpace (toUpperGo s)) = true →
      DetectQueryType s = .describe) := by
  constructor
  · intro h
    obtain ⟨t, ht⟩ := eq_append_of_isPrefixOf h
    have hd : DetectQueryType s = .describe := by
      unfold DetectQueryType
      rw [ht]
      exact detect_descSpace t
    exact ⟨hd, by rw [hd]; intro hc; cases hc⟩
  · intro h
    obtain ⟨t, ht⟩ := eq_append_of_isPrefixOf h
    unfold DetectQueryType
    rw [ht]
    exact detect_describe t

/-- **C6 witness**: "  desc t" trims/upper-cases to a "DESC "-led string and
detects as DESCRIBE. -/
theorem C6_witness :
    DetectQueryType ("  desc t".data) = .describe ∧
    DetectQueryType ("  desc t".data) ≠ .delete :=
  (C6_desc_detection ("  desc t".data)).1 (by decide)

/-! ### C7 -/

/-- **C7**: for every SQL string whose leading keyword — after arbitrary
leading white space, case-insensitively — is in the closed keyword set,
`IsReadOnlyQueryType (DetectQueryType s)` holds iff that keyword is one of
SELECT, SHOW, DESCRIBE, EXPLAIN. -/
theorem C7_readonly_classification :
    ∀ kw qt, (kw, qt) ∈ closedKeywordTable →
    ∀ ws kwRaw rest, (∀ c ∈ ws, isSpaceGo c = true) → toUpperGo kwRaw = kw →
    (IsReadOnlyQueryType (DetectQueryType (ws ++ kwRaw ++ rest)) = true ↔
      kw ∈ readOnlyKeywords) := by
  intro kw qt hmem ws kwRaw rest hws hup
  simp only [closedKeywordTable, List.mem_cons, List.not_mem_nil, or_false,
    Prod.mk.injEq] at hmem
  rcases hmem with hc|hc|hc|hc|hc|hc|hc|hc|hc|hc|hc|hc|hc|hc|hc <;>
    obtain ⟨rfl, rfl⟩ := hc
  · rw [DetectQueryType_shape detect_select (by decide) (by decide) hws hup]
    decide
  · rw [DetectQueryType_shape detect_insert (by decide) (by decide) hws hup]
    decide
  · rw [DetectQueryType_shape detect_update (by decide) (by decide) hws hup]
    decide
  · rw [DetectQueryType_shape detect_delete (by decide) (by decide) hws hup]
    decide
  · rw [DetectQueryType_shape detect_alter (by decide) (by decide) hws hup]
    decide
  · rw [DetectQueryType_shape detect_show (by decide) (by decide) hws hup]
    decide
  · rw [DetectQueryType_shape detect_describe (by decide) (by decide) hws hup]
    decide
  · rw [DetectQueryType_shape detect_explain (by decide) (by decide) hws hup]
    decide
  · rw [DetectQueryType_shape detect_drop (by decide) (by decide) hws hup]
    decide
  · rw [DetectQueryType_shape detect_truncate (by decide) (by decide) hws hup]
    decide
  · rw [DetectQueryType_shape detect_create (by decide) (by decide) hws hup]
    decide
  · rw [DetectQueryType_shape detect_grant (by decide) (by decide) hws hup]
    decide
  · rw [DetectQueryType_shape detect_revoke (by decide) (by decide) hws hup]
    decide
  · rw [DetectQueryType_shape detect_setKw (by decide) (by decide) hws hup]
    decide
  · rw [DetectQueryType_shape detect_useKw (by decide) (by decide) hws hup]
    decide

/-- **C7 witness**: " select * FROM t" (lower-case keyword, leading space)
classifies as read-only, and SELECT is in the read-only keyword set. -/
theorem C7_witness :
    IsReadOnlyQueryType
        (DetectQueryType (" ".data ++ "select".data ++ " * FROM t".data)) =
      true ↔ "SELECT".data ∈ readOnlyKeywords :=
  C7_readonly_classification ("SELECT".data) .select (by decide)
    (" ".data) ("select".data) (" * FROM t".data) (by decide) (by decide)

/-! ### C8 -/

/-- **C8**: the text-based dangerous predicate flags exactly the statements
whose trimmed, upper-cased form begins with DROP, ALTER, TRUNCATE, CREATE,
GRANT or REVOKE (so it flags ALTER), while the type-based predicate holds
exactly for the detected types DROP, TRUNCATE, CREATE, GRANT, REVOKE — and
is false for ALTER. -/
theorem C8_dangerous_predicates :
    (∀ sql, isDangerousQuery sql = true ↔
      ∃ p ∈ dangerousPrefixes,
        p.isPrefixOf (trimSpace (toUpperGo sql)) = true)
    ∧ (∀ qt, IsDangerousQueryType qt = true ↔
        qt ∈ [QueryType.drop, .truncate, .create, .grant, .revoke])
    ∧ "ALTER".data ∈ dangerousPrefixes
    ∧ IsDangerousQueryType .alter = false := by
  refine ⟨?_, ?_, by decide, rfl⟩
  · intro sql
    simp [isDangerousQuery, List.any_eq_true]
  · intro qt
    cases qt <;> simp [IsDangerousQueryType]

/-- **C8 witness**: " alter table t" is flagged by the text-based predicate
(its trimmed upper-cased form begins with ALTER). -/
theorem C8_witness : isDangerousQuery (" alter table t".data) = true :=
  (C8_dangerous_predicates.1 (" alter table t".data)).mpr
    ⟨"ALTER".data, by decide, by decide⟩

/-! ### C9 -/

/-- **C9**: for every SQL string and non-empty allowed list,
`ValidateQueryType` returns no error iff the detected type is a member of
the allowed list, and otherwise returns a query-type-mismatch error naming
the expected label set (joined with "/") and the detected label. -/
theorem C9_validateType (sql : List Char) (allowed : List QueryType)
    (_hne : allowed ≠ []) :
    (ValidateQueryType sql allowed = none ↔ DetectQueryType sql ∈ allowed)
    ∧ (DetectQueryType sql ∉ allowed →
        ValidateQueryType sql allowed =
          some (.queryTypeMismatch
            (joinWith "/".data (allowed.map GetQueryTypeLabel))
            (GetQueryTypeLabel (DetectQueryType sql)))) := by
  constructor
  · unfold ValidateQueryType
    by_cases h : DetectQueryType sql ∈ allowed
    · simp [h, List.contains, List.elem_iff]
    · simp [h, List.contains, List.elem_iff]
  · intro h
    unfold ValidateQueryType
    simp [h, List.contains, List.elem_iff]

/-- **C9 witness**: `ValidateQueryType "SELECT 1" [SELECT]` returns no
error, and `ValidateQueryType "INSERT INTO t VALUES (1)" [SELECT]` returns
a mismatch naming expected SELECT and got INSERT. -/
theorem C9_witness :
    ValidateQueryType ("SELECT 1".data) [.select] = none ∧
    ValidateQueryType ("INSERT INTO t VALUES (1)".data) [.select] =
      some (.queryTypeMismatch ("SELECT".data) ("INSERT".data)) := by
  constructor
  · exact (C9_validateType ("SELECT 1".data) [.select] (by decide)).1.mpr
      (by decide)
  · have h := (C9_validateType ("INSERT INTO t VALUES (1)".data) [.select]
      (by decide)).2 (by decide)
    rw [h]
    decide

/-! ### C10 -/

theorem not_mem_of_contains_eq_false {n : List Char} {c : Char}
    (h : n.contains c = false) : c ∉ n := by simpa using h

theorem matchEnvToken_token {n : List Char} (hne : n ≠ [])
    (hnc : n.contains '\x7d' = false) :
    matchEnvToken ('$' :: '\x7b' :: (n ++ ['\x7d'])) = some n := by
  simp [matchEnvToken, List.getLast?_concat, List.dropLast_concat, hne,
    not_mem_of_contains_eq_false hnc]

theorem matchEnvToken_some {v n : List Char} (h : matchEnvToken v = some n) :
    v = '$' :: '\x7b' :: (n ++ ['\x7d']) ∧ n ≠ [] ∧
      n.contains '\x7d' = false := by
  unfold matchEnvToken at h
  split at h
  next rest =>
    split at h
    next c hlast =>
      split at h
      next hceq =>
        split at h
        next hcond =>
          injection h with h'
          subst h'
          obtain ⟨ys, hys⟩ := List.getLast?_eq_some_iff.mp hlast
          subst hceq
          simp only [Bool.and_eq_true, Bool.not_eq_true'] at hcond
          refine ⟨?_, ?_, hcond.2⟩
          · rw [hys, List.dropLast_concat]
          · rw [hys, List.dropLast_concat] at hcond ⊢
            simpa using hcond.1
        next => exact absurd h (by simp)
      next => exact absurd h (by simp)
    next => exact absurd h (by simp)
  next => exact absurd h (by simp)

/-- **C10**: config loading rejects, with an error naming the connection,
any connection whose host, user or database is empty after environment
expansion; otherwise the port defaults to 3306 and max_rows to 1000
whenever the stored value is the zero value (absent or explicit 0); and
`$\x7bVAR\x7d` expansion applies exactly when the entire field value is one
such token (an unset variable then expands to the empty string, which for
host/user/database triggers the required-non-empty failure). -/
theorem C10_config_defaults :
    (∀ env name conn, expandEnvVar env conn.host = [] →
      validateAndApplyDefaults env name conn = .error (.hostRequired name))
    ∧ (∀ env name conn, expandEnvVar env conn.host ≠ [] →
        expandEnvVar env conn.user = [] →
        validateAndApplyDefaults env name conn = .error (.userRequired name))
    ∧ (∀ env name conn, expandEnvVar env conn.host ≠ [] →
        expandEnvVar env conn.user ≠ [] →
        expandEnvVar env conn.database = [] →
        validateAndApplyDefaults env name conn =
          .error (.databaseRequired name))
    ∧ (∀ env name conn, expandEnvVar env conn.host ≠ [] →
        expandEnvVar env conn.user ≠ [] →
        expandEnvVar env conn.database ≠ [] →
        validateAndApplyDefaults env name conn =
          .ok { host := expandEnvVar env conn.host,
                port := if conn.port = 0 then 3306 else conn.port,
                user := expandEnvVar env conn.user,
                password := expandEnvVar env conn.password,
                database := expandEnvVar env conn.database,
                readOnly := conn.readOnly,
                maxRows := if conn.maxRows = 0 then 1000 else conn.maxRows })
    ∧ (∀ env n, n ≠ [] → n.contains '\x7d' = false →
        expandEnvVar env ('$' :: '\x7b' :: (n ++ ['\x7d'])) = env n)
    ∧ (∀ env v, expandEnvVar env v ≠ v →
        ∃ n, v = '$' :: '\x7b' :: (n ++ ['\x7d']) ∧ n ≠ [] ∧
          n.contains '\x7d' = false ∧ expandEnvVar env v = env n) := by
  refine ⟨?_, ?_, ?_, ?_, ?_, ?_⟩
  · intro env name conn h1
    simp [validateAndApplyDefaults, h1]
  · intro env name conn h1 h2
    simp [validateAndApplyDefaults, h1, h2]
  · intro env name conn h1 h2 h3
    simp [validateAndApplyDefaults, h1, h2, h3]
  · intro env name conn h1 h2 h3
    simp [validateAndApplyDefaults, h1, h2, h3]
  · intro env n hne hnc
    unfold expandEnvVar
    rw [matchEnvToken_token hne hnc]
  · intro env v hv
    cases hm : matchEnvToken v with
    | none => exact absurd (by unfold expandEnvVar; rw [hm]) hv
    | some n =>
      obtain ⟨hshape, hne, hnc⟩ := matchEnvToken_some hm
      exact ⟨n, hshape, hne, hnc, by unfold expandEnvVar; rw [hm]⟩

/-- **C10 witness**: with every variable unset, a host of exactly
`$\x7bDB_HOST\x7d` expands to "" and is rejected naming the connection,
while a valid config with absent port/max_rows gets 3306 and 1000. -/
theorem C10_witness :
    validateAndApplyDefaults envUnset ("db1".data) connWithTokenHost =
      .error (.hostRequired ("db1".data)) ∧
    validateAndApplyDefaults envUnset ("db2".data) connDefaults =
      .ok { host := "h".data, port := 3306, user := "u".data, password := [],
            database := "d".data, readOnly := false, maxRows := 1000 } := by
  constructor
  · refine C10_config_defaults.1 envUnset ("db1".data) connWithTokenHost ?_
    have h := (C10_config_defaults.2.2.2.2.1) envUnset ("DB_HOST".data)
      (by decide) (by decide)
    exact h
  · have h := (C10_config_defaults.2.2.2.1) envUnset ("db2".data) connDefaults
      (by decide) (by decide) (by decide)
    rw [h]
    rfl

/-! ### Manager lemmas -/

theorem takeCapped_eq_take {α : Type} (m : Int) (l : List α) :
    takeCapped m l = l.take m.toNat := by
  induction l generalizing m with
  | nil => simp [takeCapped]
  | cons x xs ih =>
    by_cases hm : m ≤ 0
    · rw [show m.toNat = 0 by omega]
      simp [takeCapped, hm]
    · rw [show m.toNat = (m - 1).toNat + 1 by omega]
      simp [takeCapped, hm, ih]

theorem skippedCheckMsg_eq (sql : List Char) :
    skippedCheckMsg sql =
      (if isDangerousQuery sql then
         (if isSensitiveQuery sql then
            "dangerous query blocking, sensitive query blocking".data
          else "dangerous query blocking".data)
       else (if isSensitiveQuery sql then "sensitive query blocking".data
             else "none".data)) := by
  unfold skippedCheckMsg
  cases hd : isDangerousQuery sql <;> cases hs : isSensitiveQuery sql <;>
    simp [joinWith]

/-! ### C5 -/

/-- **C5**: for a name absent from the registry, `GetConnection` fails with
an unknown-connection error and leaves the manager state (hence the pool)
unchanged; and whenever the newly opened handle fails its liveness probe
(whether the pool had no entry or a dead one), it returns a
connection-failure error and again leaves the state unchanged, so the new
handle is not stored. -/
theorem C5_resolve_failures (env : DriverEnv) (st : ManagerState)
    (name : List Char) :
    (lookupStr st.registry name = none →
      GetConnection env st name = (.error (.unknownConnection name), st))
    ∧ (∀ cfg, lookupStr st.registry name = some cfg →
        (lookupStr st.pool name = none ∨
          ∃ h0, lookupStr st.pool name = some h0 ∧ env.pingOk h0 = false) →
        ∀ h, env.openDsn (DSN cfg) = .ok h → env.pingOk h = false →
        GetConnection env st name = (.error (.connectionFailure name), st)) := by
  constructor
  · intro hreg
    simp [GetConnection, hreg]
  · intro cfg hreg hpool h hopen hping
    rcases hpool with hp | ⟨h0, hp, hping0⟩
    · simp [GetConnection, connectNew, hreg, hp, hopen, hping]
    · simp [GetConnection, connectNew, hreg, hp, hping0, hopen, hping]

/-- **C5 witness**: resolving an unregistered name fails with
unknown-connection and leaves the state unchanged; resolving a registered
name against a driver whose probe fails yields connection-failure and
leaves the state unchanged. -/
theorem C5_witness :
    GetConnection sampleEnv sampleState ("nope".data) =
      (.error (.unknownConnection ("nope".data)), sampleState) ∧
    GetConnection deadPingEnv sampleState ("main".data) =
      (.error (.connectionFailure ("main".data)), sampleState) :=
  ⟨(C5_resolve_failures sampleEnv sampleState ("nope".data)).1 (by decide),
   (C5_resolve_failures deadPingEnv sampleState ("main".data)).2 sampleCfg
     (by decide) (Or.inl (by decide)) 7 rfl rfl⟩

/-! ### C2 -/

/-- **C2 counterexample**: on the read-only sample connection the statement
"DESCENDING" has a detected type (UNKNOWN) that is not read-only, so the
claim demands a read-only-violation failure before any driver call; but
`ExecuteQuery` succeeds and issues the statement, because the code gates on
the text predicate `isReadOnlyQuery` (whose bare "DESC" prefix matches
"DESCENDING"), not on `IsReadOnlyQueryType (DetectQueryType sql)`. -/
theorem C2_counterexample :
    sampleCfgRO.readOnly = true ∧
    IsReadOnlyQueryType (DetectQueryType ("DESCENDING".data)) = false ∧
    isReadOnlyQuery ("DESCENDING".data) = true ∧
    (ExecuteQuery sampleEnv sampleState ("ro".data) ("DESCENDING".data)).1 =
      .ok (collectRows 1000 [("c".data)] tenRows) ∧
    (ExecuteQuery sampleEnv sampleState ("ro".data) ("DESCENDING".data)).2.2 =
      [.queryCall 7 ("DESCENDING".data)] :=
  ⟨rfl, rfl, rfl, rfl, rfl⟩

/-- **C2 (amended)**: for every resolvable connection, `ExecuteQuery` fails
before issuing any driver call with a read-only-violation error iff
`policy.read_only` holds and the text predicate `isReadOnlyQuery sql` is
false; otherwise a dangerous-operation error iff `policy.read_only` is
false and `isDangerousQuery sql`; otherwise a sensitive-access error iff
`isSensitiveQuery sql`; and only when none of the three gates fires is the
statement issued to the driver. -/
theorem C2_executeQuery_gates (env : DriverEnv) (st : ManagerState)
    (name sql : List Char) (h : Nat) (cfg : ConnectionConfig)
    (st' : ManagerState)
    (hres : GetConnection env st name = (.ok (h, cfg), st')) :
    ((cfg.readOnly && !isReadOnlyQuery sql) = true →
      ExecuteQuery env st name sql =
        (.error (.readOnlyViolation name), st', []))
    ∧ ((cfg.readOnly && !isReadOnlyQuery sql) = false →
       (!cfg.readOnly && isDangerousQuery sql) = true →
        ExecuteQuery env st name sql = (.error .dangerousBlocked, st', []))
    ∧ ((cfg.readOnly && !isReadOnlyQuery sql) = false →
       (!cfg.readOnly && isDangerousQuery sql) = false →
       isSensitiveQuery sql = true →
        ExecuteQuery env st name sql = (.error .sensitiveBlocked, st', []))
    ∧ ((cfg.readOnly && !isReadOnlyQuery sql) = false →
       (!cfg.readOnly && isDangerousQuery sql) = false →
       isSensitiveQuery sql = false →
        (ExecuteQuery env st name sql).2.2 = [.queryCall h sql]) := by
  refine ⟨?_, ?_, ?_, ?_⟩
  · intro g1
    simp [ExecuteQuery, hres, g1]
  · intro g1 g2
    simp [ExecuteQuery, hres, g1, g2]
  · intro g1 g2 g3
    simp [ExecuteQuery, hres, g1, g2, g3]
  · intro g1 g2 g3
    rcases hq : env.queryRes h sql with e | ⟨cols, rows⟩ <;>
      simp [ExecuteQuery, hres, g1, g2, g3, hq]

/-- **C2 witness**: "UPDATE t SET x=1" on the read-only sample connection
fails with a read-only violation and no driver statement is issued. -/
theorem C2_witness :
    ExecuteQuery sampleEnv sampleState ("ro".data) ("UPDATE t SET x=1".data) =
      (.error (.readOnlyViolation ("ro".data)), pooledState ("ro".data), []) :=
  (C2_executeQuery_gates sampleEnv sampleState ("ro".data)
    ("UPDATE t SET x=1".data) 7 sampleCfgRO (pooledState ("ro".data))
    rfl).1 (by decide)

/-! ### C3 -/

/-- **C3**: a successful `ExecuteQuery` over a result stream of `n` rows
with `0 < max_rows = m` returns exactly `min n m.toNat` rows — the first
`m.toNat` rows of the stream, normalized, nothing beyond the cap — with
`count` equal to the number of rows returned and bounded by the cap. -/
theorem C3_maxRows_cap (env : DriverEnv) (st : ManagerState)
    (name sql : List Char) (h : Nat) (cfg : ConnectionConfig)
    (st' : ManagerState) (cols : List (List Char)) (rows : List (List Value))
    (hres : GetConnection env st name = (.ok (h, cfg), st'))
    (hq : env.queryRes h sql = .ok (cols, rows)) (hm : 0 < cfg.maxRows) :
    ∀ r st2 tr, ExecuteQuery env st name sql = (.ok r, st2, tr) →
      r.rows = (rows.take cfg.maxRows.toNat).map (mkRow cols)
      ∧ r.count = r.rows.length
      ∧ r.count = min rows.length cfg.maxRows.toNat
      ∧ r.count ≤ cfg.maxRows.toNat := by
  intro r st2 tr hrun
  by_cases g1 : (cfg.readOnly && !isReadOnlyQuery sql) = true
  · simp [ExecuteQuery, hres, g1] at hrun
  · by_cases g2 : (!cfg.readOnly && isDangerousQuery sql) = true
    · simp [ExecuteQuery, hres, g1, g2] at hrun
    · by_cases g3 : isSensitiveQuery sql = true
      · simp [ExecuteQuery, hres, g1, g2, g3] at hrun
      · simp only [ExecuteQuery, hres, g1, g2, g3, Bool.false_eq_true,
          if_false, hq] at hrun
        simp only [Prod.mk.injEq, Except.ok.injEq] at hrun
        obtain ⟨hr, -, -⟩ := hrun
        subst hr
        refine ⟨?_, rfl, ?_, ?_⟩
        · simp [collectRows, takeCapped_eq_take]
        · simp [collectRows, takeCapped_eq_take, List.length_take,
            Nat.min_comm]
        · simp [collectRows, takeCapped_eq_take, List.length_take]

/-- **C3 witness**: with max_rows = 2 against the ten-row stream,
`ExecuteQuery` returns exactly the first two rows with count 2. -/
theorem C3_witness :
    ExecuteQuery sampleEnv sampleState ("cap".data) ("SELECT 1".data) =
      (.ok cap2Result, pooledState ("cap".data),
       [.queryCall 7 ("SELECT 1".data)]) ∧
    cap2Result.rows = (tenRows.take 2).map (mkRow [("c".data)]) ∧
    cap2Result.count = cap2Result.rows.length ∧
    cap2Result.count = min tenRows.length 2 ∧
    cap2Result.count ≤ 2 := by
  refine ⟨rfl, ?_⟩
  exact C3_maxRows_cap sampleEnv sampleState ("cap".data) ("SELECT 1".data) 7
    sampleCfgCap (pooledState ("cap".data)) [("c".data)] tenRows rfl rfl
    (by decide) cap2Result (pooledState ("cap".data))
    [.queryCall 7 ("SELECT 1".data)] rfl

/-! ### C1 -/

/-- **C1**: on a resolvable connection, `ExecuteUnsafe` fails with a
read-only violation — issuing no driver statement — exactly when the policy
is read-only and the detected type is not read-only; in every other case it
never fails because of the dangerous or sensitive checks (the only error
left is driver failure), records which of the two checks applied in the
skipped-checks field ("none" when neither), and on success populates
exactly one of the two result fields — the QueryResult iff the detected
type is read-only. -/
theorem C1_executeUnsafe (env : DriverEnv) (st : ManagerState)
    (name sql : List Char) (h : Nat) (cfg : ConnectionConfig)
    (st' : ManagerState)
    (hres : GetConnection env st name = (.ok (h, cfg), st')) :
    (cfg.readOnly = true → IsReadOnlyQueryType (DetectQueryType sql) = false →
      ExecuteUnsafeMode env st name sql =
        (.error (.readOnlyViolation name), st', []))
    ∧ (cfg.readOnly = false ∨ IsReadOnlyQueryType (DetectQueryType sql) = true →
        (∀ e st2 tr, ExecuteUnsafeMode env st name sql = (.error e, st2, tr) →
          e = .executionFailure)
        ∧ (∀ r st2 tr, ExecuteUnsafeMode env st name sql = (.ok r, st2, tr) →
            r.skippedCheck =
              (if isDangerousQuery sql then
                 (if isSensitiveQuery sql then
                    "dangerous query blocking, sensitive query blocking".data
                  else "dangerous query blocking".data)
               else (if isSensitiveQuery sql then
                       "sensitive query blocking".data
                     else "none".data))
            ∧ r.queryResult.isSome = IsReadOnlyQueryType (DetectQueryType sql)
            ∧ r.writeResult.isSome =
                !IsReadOnlyQueryType (DetectQueryType sql))) := by
  constructor
  · intro h1 h2
    simp [ExecuteUnsafeMode, hres, h1, h2]
  · intro hok
    cases hrot : IsReadOnlyQueryType (DetectQueryType sql) with
    | false =>
      have hro : cfg.readOnly = false := by
        rcases hok with h1 | h1
        · exact h1
        · rw [h1] at hrot; cases hrot
      rcases hx : env.execRes h sql with e | ⟨ra, li⟩
      · constructor
        · intro e' st2 tr heq
          simp [ExecuteUnsafeMode, hres, hro, hrot, hx] at heq
          exact heq.1.symm
        · intro r st2 tr heq
          simp [ExecuteUnsafeMode, hres, hro, hrot, hx] at heq
      · constructor
        · intro e' st2 tr heq
          simp [ExecuteUnsafeMode, hres, hro, hrot, hx] at heq
        · intro r st2 tr heq
          simp only [ExecuteUnsafeMode, hres, hro, hrot, hx,
            Bool.false_and, Bool.not_false, Bool.and_true, Bool.and_false,
            Bool.false_eq_true, if_false, Prod.mk.injEq,
            Except.ok.injEq] at heq
          obtain ⟨hr, -, -⟩ := heq
          subst hr
          exact ⟨skippedCheckMsg_eq sql, rfl, rfl⟩
    | true =>
      rcases hx : env.queryRes h sql with e | ⟨cols, rows⟩
      · constructor
        · intro e' st2 tr heq
          simp [ExecuteUnsafeMode, hres, hrot, hx] at heq
          exact heq.1.symm
        · intro r st2 tr heq
          simp [ExecuteUnsafeMode, hres, hrot, hx] at heq
      · constructor
        · intro e' st2 tr heq
          simp [ExecuteUnsafeMode, hres, hrot, hx] at heq
        · intro r st2 tr heq
          simp only [ExecuteUnsafeMode, hres, hrot, hx,
            Bool.not_true, Bool.and_false, Bool.false_eq_true, if_false,
            if_true, Prod.mk.injEq, Except.ok.injEq] at heq
          obtain ⟨hr, -, -⟩ := heq
          subst hr
          exact ⟨skippedCheckMsg_eq sql, rfl, rfl⟩

/-- **C1 witness**: "DELETE FROM t" on the read-only connection fails with
a read-only violation and executes nothing; "DROP TABLE t" on the writable
connection succeeds, reports skipped_check "dangerous query blocking", and
populates only the WriteResult field. -/
theorem C1_witness :
    ExecuteUnsafeMode sampleEnv sampleState ("ro".data)
        ("DELETE FROM t".data) =
      (.error (.readOnlyViolation ("ro".data)), pooledState ("ro".data), []) ∧
    ExecuteUnsafeMode sampleEnv sampleState ("main".data)
        ("DROP TABLE t".data) =
      (.ok unsafeDropResult, pooledState ("main".data),
       [.execCall 7 ("DROP TABLE t".data)]) ∧
    unsafeDropResult.skippedCheck = "dangerous query blocking".data ∧
    unsafeDropResult.queryResult.isSome = false ∧
    unsafeDropResult.writeResult.isSome = true := by
  refine ⟨?_, rfl, ?_⟩
  · exact (C1_executeUnsafe sampleEnv sampleState ("ro".data)
      ("DELETE FROM t".data) 7 sampleCfgRO (pooledState ("ro".data))
      rfl).1 rfl (by decide)
  · have hap := ((C1_executeUnsafe sampleEnv sampleState ("main".data)
      ("DROP TABLE t".data) 7 sampleCfg (pooledState ("main".data)) rfl).2
      (Or.inl rfl)).2 unsafeDropResult (pooledState ("main".data))
      [.execCall 7 ("DROP TABLE t".data)] rfl
    exact ⟨hap.1, hap.2.1, hap.2.2⟩

/-! ### C4 -/

/-- **C4**: on a resolvable non-read-only connection, `ExecuteAlter` fails
with a query-type-mismatch error unless the detected type is ALTER; even
when it is ALTER, it fails with a dangerous-operation (blocklist) error
whenever the trimmed, upper-cased statement contains one of DROP DATABASE,
DROP SCHEMA, TRUNCATE, CREATE DATABASE, GRANT, REVOKE (the blocklist scan
finds no pattern exactly when none of those substrings occurs); when the
type is ALTER, no pattern matches and the statement is not sensitive, the
statement is executed. -/
theorem C4_executeAlter (env : DriverEnv) (st : ManagerState)
    (name sql : List Char) (h : Nat) (cfg : ConnectionConfig)
    (st' : ManagerState)
    (hres : GetConnection env st name = (.ok (h, cfg), st'))
    (hro : cfg.readOnly = false) :
    (DetectQueryType sql ≠ .alter →
      ExecuteAlter env st name sql =
        (.error (.queryTypeMismatch ("ALTER".data)
          (GetQueryTypeLabel (DetectQueryType sql))), st', []))
    ∧ (DetectQueryType sql = .alter →
        ∀ p, findBlockedPattern (toUpperGo (trimSpace sql)) = some p →
        ExecuteAlter env st name sql = (.error (.alterBlocked p), st', []))
    ∧ (∀ q, findBlockedPattern q = none ↔
        ∀ p ∈ alterBlockedPatterns, containsStr q p = false)
    ∧ (DetectQueryType sql = .alter →
        findBlockedPattern (toUpperGo (trimSpace sql)) = none →
        isSensitiveQuery sql = false →
        (ExecuteAlter env st name sql).2.2 = [.execCall h sql]
        ∧ (∀ ra li, env.execRes h sql = .ok (ra, li) →
            (ExecuteAlter env st name sql).1 =
              .ok { rowsAffected := ra, lastInsertID := 0 })) := by
  refine ⟨?_, ?_, ?_, ?_⟩
  · intro hne
    have hv : ValidateQueryType sql [.alter] =
        some (.queryTypeMismatch ("ALTER".data)
          (GetQueryTypeLabel (DetectQueryType sql))) := by
      simp [ValidateQueryType, List.contains, List.elem_iff, hne, joinWith]
      decide
    simp [ExecuteAlter, hres, hv]
  · intro hal p hp
    have hv : ValidateQueryType sql [.alter] = none := by
      simp [ValidateQueryType, hal]
    simp [ExecuteAlter, hres, hv, hro, hp]
  · intro q
    unfold findBlockedPattern
    rw [List.find?_eq_none]
    simp
  · intro hal hnb hse
    have hv : ValidateQueryType sql [.alter] = none := by
      simp [ValidateQueryType, hal]
    constructor
    · rcases hx : env.execRes h sql with e | ⟨ra, li⟩ <;>
        simp [ExecuteAlter, hres, hv, hro, hnb, hse, hx]
    · intro ra li hx
      simp [ExecuteAlter, hres, hv, hro, hnb, hse, hx]

/-- **C4 witness**: on the writable sample connection, "SELECT 1" is
rejected with a type mismatch naming ALTER/SELECT;
"ALTER TABLE t; DROP DATABASE prod" is rejected by the blocklist on
DROP DATABASE; and "ALTER TABLE t ADD COLUMN y INT" passes every gate and
is executed. -/
theorem C4_witness :
    ExecuteAlter sampleEnv sampleState ("main".data) ("SELECT 1".data) =
      (.error (.queryTypeMismatch ("ALTER".data) ("SELECT".data)),
       pooledState ("main".data), []) ∧
    ExecuteAlter sampleEnv sampleState ("main".data)
        ("ALTER TABLE t; DROP DATABASE prod".data) =
      (.error (.alterBlocked ("DROP DATABASE".data)),
       pooledState ("main".data), []) ∧
    (ExecuteAlter sampleEnv sampleState ("main".data)
        ("ALTER TABLE t ADD COLUMN y INT".data)).2.2 =
      [.execCall 7 ("ALTER TABLE t ADD COLUMN y INT".data)] ∧
    (ExecuteAlter sampleEnv sampleState ("main".data)
        ("ALTER TABLE t ADD COLUMN y INT".data)).1 =
      .ok { rowsAffected := 1, lastInsertID := 0 } := by
  refine ⟨?_, ?_, ?_, ?_⟩
  · exact (C4_executeAlter sampleEnv sampleState ("main".data)
      ("SELECT 1".data) 7 sampleCfg (pooledState ("main".data)) rfl rfl).1
      (by decide)
  · exact (C4_executeAlter sampleEnv sampleState ("main".data)
      ("ALTER TABLE t; DROP DATABASE prod".data) 7 sampleCfg
      (pooledState ("main".data)) rfl rfl).2.1 (by decide)
      ("DROP DATABASE".data) (by decide)
  · exact ((C4_executeAlter sampleEnv sampleState ("main".data)
      ("ALTER TABLE t ADD COLUMN y INT".data) 7 sampleCfg
      (pooledState ("main".data)) rfl rfl).2.2.2 (by decide) (by decide)
      (by decide)).1
  · exact ((C4_executeAlter sampleEnv sampleState ("main".data)
      ("ALTER TABLE t ADD COLUMN y INT".data) 7 sampleCfg
      (pooledState ("main".data)) rfl rfl).2.2.2 (by decide) (by decide)
      (by decide)).2 1 5 rfl

end MysqlMcp
